import Mathlib

/-!
Verification of the CLAWS state-machine load-testing engine
(`claws/__main__.py`): a worker (`StateMachine`) interprets a declarative
state graph, issuing HTTP requests per state and transitioning on response
status, while a `MetricsCollector` holds a shared running flag and the
harvested metric records.

The shallow embedding below translates the Python source directly:
dictionaries become association lists, the aiohttp session becomes an
oracle `Env.http` indexed by a call counter, the shared `running` flag
becomes an oracle `Env.running` indexed by a sample counter, and the
potentially non-terminating `while` loop of `StateMachine.run` is given
explicit fuel (one unit per pass of the outer loop).
-/

namespace Claws

/-- a Python dict with string keys and string values, as an association
list in insertion order -/
abbrev Dict := List (String × String)

/-- Python `d[k] = v`: overwrite the first binding of `k` in place,
else append at the end (dict insertion-order semantics) -/
def dictSet (d : Dict) (k v : String) : Dict :=
  if d.any (fun p => p.fst == k) then
    d.map (fun p => if p.fst == k then (k, v) else p)
  else d ++ [(k, v)]

/-- Python `d.update(c)`: set every binding of `c` into `d`, in order -/
def dictUpdate (d c : Dict) : Dict :=
  c.foldl (fun acc kv => dictSet acc kv.fst kv.snd) d

/-- the `params` mapping of a task; only its optional `data` entry (the
request body) is ever inspected or modified by the engine -/
structure ParamsDef where
  data : Option Dict
deriving DecidableEq, Repr

/-- a task dict of the config: `name`, `method`, `url`, optional `params` -/
structure TaskDef where
  name : String
  method : String
  url : String
  params : Option ParamsDef
deriving DecidableEq, Repr

/-- a transition dict: `condition` (a predicate over the optional status
code), `next_state`, and the optional `terminate` flag, defaulting false -/
structure Transition where
  condition : Option Nat → Bool
  next_state : String
  terminate : Bool

/-- a state entry of the config: ordered tasks and ordered transitions -/
structure StateDef where
  tasks : List TaskDef
  transitions : List Transition

/-- the whole config dict: optional `initial_state` and the `states`
mapping (association list in declaration order) -/
structure Config where
  initial_state : Option String
  states : List (String × StateDef)

/-- one entry of `self.metrics`, as appended by `execute_task` -/
structure MetricRecord where
  state : String
  task : String
  status : Option Nat
  response_time : Nat
  error : Option String
deriving DecidableEq, Repr

/-- the observable HTTP request issued by one `execute_task` call -/
structure Request where
  method : String
  url : String
  data : Option Dict
deriving DecidableEq, Repr

/-- outcome of one HTTP call: a response status with elapsed time, or an
`aiohttp.ClientError` description with elapsed time -/
inductive HttpResult where
  | ok (status : Nat) (elapsed : Nat)
  | err (msg : String) (elapsed : Nat)

/-- the environment: the HTTP capability (indexed by a per-worker call
counter) and the collector's shared `running` flag (indexed by a sample
counter) -/
structure Env where
  http : Nat → Request → HttpResult
  running : Nat → Bool

/-- the mutable fields of a `StateMachine` instance; `config` is part of
the mutable state because `execute_task` writes merged credentials into
the task's `params` dict in place -/
structure Machine where
  config : Config
  credentials : List Dict
  current_credential : Option Dict
  state : String
  metrics : List MetricRecord

/-- a machine together with its oracle counters and the trace of HTTP
requests it has issued -/
structure World where
  m : Machine
  httpCalls : Nat
  flagChecks : Nat
  trace : List Request

/-- `StateMachine.__init__`: state is `config.get("initial_state",
"INITIAL")`, no current credential, empty metrics -/
def initMachine (cfg : Config) (creds : List Dict) : Machine :=
  { config := cfg, credentials := creds, current_credential := none,
    state := cfg.initial_state.getD "INITIAL", metrics := [] }

/-- a fresh world for one worker -/
def initWorld (cfg : Config) (creds : List Dict) : World :=
  { m := initMachine cfg creds, httpCalls := 0, flagChecks := 0, trace := [] }

/-- sample the shared running flag (one `self.collector.running` read) -/
def flagVal (env : Env) (w : World) : Bool := env.running w.flagChecks

/-- advance the flag sample counter after a read -/
def bumpFlag (w : World) : World := { w with flagChecks := w.flagChecks + 1 }

/-- Python truthiness of `self.current_credential`: `None` and the empty
dict are falsy -/
def credTruthy : Option Dict → Bool
  | none => false
  | some c => !c.isEmpty

/-- replace the element at index `i`, if any -/
def updateAt (f : α → α) : Nat → List α → List α
  | _, [] => []
  | 0, x :: xs => f x :: xs
  | i + 1, x :: xs => x :: updateAt f i xs

/-- overwrite a task's `params` data with `d` -/
def setParamsData (d : Dict) (t : TaskDef) : TaskDef :=
  { t with params := some { data := some d } }

/-- overwrite the `params` data of the task at index `ti` of a state -/
def setStateTasks (ti : Nat) (d : Dict) (sd : StateDef) : StateDef :=
  { sd with tasks := updateAt (setParamsData d) ti sd.tasks }

/-- the in-place effect of `params["data"].update(credential)` on the
shared config: the task at index `ti` of state `si` gets `d` as its
`params` data -/
def setTaskData (cfg : Config) (si : String) (ti : Nat) (d : Dict) : Config :=
  { cfg with states := cfg.states.map (fun p =>
      if p.fst == si then (p.fst, setStateTasks ti d p.snd) else p) }

/-- the request body `execute_task` sends: the task's `params["data"]`,
with the current credential merged in when the credential is truthy and
the task declares a `data` entry -/
def requestData (cred : Option Dict) (task : TaskDef) : Option Dict :=
  match task.params.bind ParamsDef.data with
  | none => none
  | some d => if credTruthy cred then some (dictUpdate d (cred.getD [])) else some d

/-- the HTTP request issued for a task by `execute_task` -/
def taskRequest (cred : Option Dict) (task : TaskDef) : Request :=
  { method := task.method, url := task.url, data := requestData cred task }

/-- the metric record appended for one HTTP outcome: on success the
status and elapsed time with no error, on `aiohttp.ClientError` no
status, the elapsed time, and the failure description -/
def recordOf (si : String) (task : TaskDef) : HttpResult → MetricRecord
  | .ok status elapsed =>
    { state := si, task := task.name, status := some status,
      response_time := elapsed, error := none }
  | .err msg elapsed =>
    { state := si, task := task.name, status := none,
      response_time := elapsed, error := some msg }

/-- the value `execute_task` returns: the status on success, `None` on
transport failure -/
def statusOf : HttpResult → Option Nat
  | .ok status _ => some status
  | .err _ _ => none

/-- `StateMachine.execute_task`: build the request (merging the current
credential into the task's shared `data` dict in place when applicable),
invoke the HTTP capability, append exactly one metric record, and return
the optional status code (`None` on `aiohttp.ClientError`) -/
def executeTask (env : Env) (si : String) (ti : Nat) (w : World) :
    World × Option Nat :=
  match (List.lookup si w.m.config.states).bind (fun sd => sd.tasks.get? ti) with
  | none => (w, none)
  | some task =>
    let req := taskRequest w.m.current_credential task
    let cfg1 :=
      if (task.params.bind ParamsDef.data).isSome && credTruthy w.m.current_credential then
        setTaskData w.m.config si ti ((requestData w.m.current_credential task).getD [])
      else w.m.config
    let res := env.http w.httpCalls req
    let m1 := { w.m with config := cfg1, metrics := w.m.metrics ++ [recordOf si task res] }
    ({ w with m := m1, httpCalls := w.httpCalls + 1, trace := w.trace ++ [req] },
     statusOf res)

/-- the `for transition in state_config["transitions"]` loop: first
transition whose condition holds on the status -/
def findTransition (status : Option Nat) : List Transition → Option Transition
  | [] => none
  | t :: ts => if t.condition status then some t else findTransition status ts

/-- the transitions of the current state in the current config -/
def transitionsOf (cfg : Config) (si : String) : List Transition :=
  ((List.lookup si cfg.states).map StateDef.transitions).getD []

/-- the LOGIN credential pop of `run`: in state LOGIN with a non-empty
queue, `self.current_credential = self.credentials.pop(0)` -/
def popCredential (w : World) : World :=
  if w.m.state == "LOGIN" && !w.m.credentials.isEmpty then
    { w with m := { w.m with
        current_credential := some (w.m.credentials.headD [])
        credentials := w.m.credentials.tail } }
  else w

/-- `self.state = transition["next_state"]` -/
def setState (s : String) (w : World) : World :=
  { w with m := { w.m with state := s } }

/-- the `for task in state_config["tasks"]` loop, by task index, with
`remaining` tasks left. Returns the world and whether `run` returned
(a terminal-flagged transition was taken). Per task: sample the flag and
break if false; in state LOGIN with a non-empty queue pop the front
credential; execute the task; scan the transitions for the first match —
terminal means return, a plain match sets the state and breaks, no match
continues with the next task. -/
def taskLoop (env : Env) : World → Nat → Nat → World × Bool
  | w, _, 0 => (w, false)
  | w, ti, remaining + 1 =>
    if flagVal env w then
      let w1 := bumpFlag w
      let w2 := popCredential w1
      let er := executeTask env w2.m.state ti w2
      match findTransition er.snd (transitionsOf er.fst.m.config er.fst.m.state) with
      | some t =>
        let w4 := setState t.next_state er.fst
        if t.terminate then (w4, true) else (w4, false)
      | none => taskLoop env er.fst (ti + 1) remaining
    else (bumpFlag w, false)

/-- result of running the outer `while` loop with a given amount of fuel:
either the Python `run` coroutine returned, or the fuel ran out with the
loop still going -/
inductive RunResult where
  | done (w : World)
  | fuelOut (w : World)

/-- whether the run actually returned -/
def RunResult.isDone : RunResult → Bool
  | .done _ => true
  | .fuelOut _ => false

/-- the world carried by either outcome -/
def finalWorld : RunResult → World
  | .done w => w
  | .fuelOut w => w

/-- `StateMachine.run`: while the current state names an entry of the
`states` mapping, sample the flag (break if false), then walk the state's
task list. One unit of fuel per pass of the `while` loop. -/
def runLoop (env : Env) : Nat → World → RunResult
  | 0, w => .fuelOut w
  | fuel + 1, w =>
    match List.lookup w.m.state w.m.config.states with
    | none => .done w
    | some sd =>
      if flagVal env w then
        let r := taskLoop env (bumpFlag w) 0 sd.tasks.length
        if r.snd then .done r.fst else runLoop env fuel r.fst
      else .done (bumpFlag w)

/-- `MetricsCollector.add_metrics`: extend the collected list -/
def add_metrics (collected new : List MetricRecord) : List MetricRecord :=
  collected ++ new

/-- the harvest loop of `main`: after `asyncio.wait` returns, every state
machine of the round — finished or not — has its metrics added to the
collector -/
def harvestRound (collected : List MetricRecord) (machines : List Machine) :
    List MetricRecord :=
  machines.foldl (fun c sm => add_metrics c sm.metrics) collected

/-- the worker-population construction of `main`: one machine per
credential, each holding a copy of the whole credential list; no
validation of the config happens anywhere on this path -/
def buildMachines (cfg : Config) (creds : List Dict) : List Machine :=
  (List.range creds.length).map (fun _ => initMachine cfg creds)

/-- Modelled from the spec: the harvesting step as the specification
describes it — only the machines that have finished by that point (paired
here with a finished flag, which the code's harvest loop nowhere consults)
contribute their metrics. Used to compare against `harvestRound`. -/
def harvestFinishedSpec (collected : List MetricRecord)
    (machines : List (Machine × Bool)) : List MetricRecord :=
  machines.foldl (fun c p => if p.snd then add_metrics c p.fst.metrics else c) collected

end Claws

namespace Claws

/-! Concrete scenarios used to settle the claims. -/

/-- an environment whose HTTP capability always answers with status `s`
after 5 time units, and whose running flag stays true -/
def envOk (s : Nat) : Env :=
  { http := fun _ _ => .ok s 5, running := fun _ => true }

/-- the task of state A in the spec's scenario graph -/
def taskPing1 : TaskDef :=
  { name := "ping", method := "GET", url := "u", params := none }

/-- the spec's scenario graph: A moves to B on status 200 and to the
terminal F otherwise; B and F have no tasks and no transitions -/
def cfgC1 : Config :=
  { initial_state := some "A"
    states := [
      ("A", { tasks := [taskPing1]
              transitions := [
                { condition := fun st => st == some 200, next_state := "B", terminate := false },
                { condition := fun st => !(st == some 200), next_state := "F", terminate := true }] }),
      ("B", { tasks := [], transitions := [] }),
      ("F", { tasks := [], transitions := [] })] }

/-- the single record produced on the 200 path of the scenario graph -/
def recC1 : MetricRecord :=
  { state := "A", task := "ping", status := some 200, response_time := 5, error := none }

/-- the single request issued on the 200 path of the scenario graph -/
def reqC1 : Request := { method := "GET", url := "u", data := none }

/-- the world after the first pass of the outer loop on the scenario
graph: the worker sits in state B with one 200 record -/
def wB1 : World :=
  { m := { config := cfgC1, credentials := [], current_credential := none,
           state := "B", metrics := [recC1] }
    httpCalls := 1, flagChecks := 2, trace := [reqC1] }

/-- a credential as in `main`'s pool -/
def credU : Dict := [("username", "user1"), ("password", "pass1")]

/-- the LOGIN task of `main`'s config, with an initially empty body -/
def taskLogin : TaskDef :=
  { name := "login", method := "POST", url := "https://example.com/login"
    params := some { data := some [] } }

/-- a one-state graph holding only the LOGIN task -/
def cfgC2 : Config :=
  { initial_state := some "LOGIN"
    states := [("LOGIN", { tasks := [taskLogin], transitions := [] })] }

/-- the task list of a named state, for comparing configs before and
after a run -/
def tasksOf (cfg : Config) (si : String) : Option (List TaskDef) :=
  (List.lookup si cfg.states).map StateDef.tasks

/-- a one-task probe state used for the transition-order claims -/
def taskPing : TaskDef :=
  { name := "ping", method := "GET", url := "u", params := none }

/-- a graph with one state S carrying two transitions, both symbolic -/
def cfgC3 (t1 t2 : Transition) : Config :=
  { initial_state := some "S"
    states := [("S", { tasks := [taskPing], transitions := [t1, t2] })] }

/-- first task of state A in the terminal-halt scenario -/
def taskA4 : TaskDef := { name := "first", method := "GET", url := "u1", params := none }

/-- second task of state A in the terminal-halt scenario -/
def taskB4 : TaskDef := { name := "second", method := "GET", url := "u2", params := none }

/-- the task of state B in the terminal-halt scenario; it must never run -/
def taskC4 : TaskDef := { name := "other", method := "GET", url := "u3", params := none }

/-- a graph where state A has two tasks and one symbolic transition, and
state B holds a further task -/
def cfgC4 (t : Transition) : Config :=
  { initial_state := some "A"
    states := [
      ("A", { tasks := [taskA4, taskB4], transitions := [t] }),
      ("B", { tasks := [taskC4], transitions := [] })] }

/-- first task of the no-progress state S -/
def taskA5 : TaskDef := { name := "t1", method := "GET", url := "u1", params := none }

/-- second task of the no-progress state S -/
def taskB5 : TaskDef := { name := "t2", method := "GET", url := "u2", params := none }

/-- a graph whose sole state S has two tasks and one symbolic transition -/
def cfgC5 (t : Transition) : Config :=
  { initial_state := some "S"
    states := [("S", { tasks := [taskA5, taskB5], transitions := [t] })] }

/-- the record of S's first task under status 200 -/
def recC5A : MetricRecord :=
  { state := "S", task := "t1", status := some 200, response_time := 5, error := none }

/-- the record of S's second task under status 200 -/
def recC5B : MetricRecord :=
  { state := "S", task := "t2", status := some 200, response_time := 5, error := none }

/-- the request of S's first task -/
def reqC5A : Request := { method := "GET", url := "u1", data := none }

/-- the request of S's second task -/
def reqC5B : Request := { method := "GET", url := "u2", data := none }

/-- a config used as an inert placeholder inside harvested machines -/
def cfgEmpty7 : Config := { initial_state := none, states := [] }

/-- a record held by a finished worker at harvest time -/
def rec7A : MetricRecord :=
  { state := "A", task := "x", status := some 200, response_time := 1, error := none }

/-- a record held by a still-running worker at harvest time -/
def rec7B : MetricRecord :=
  { state := "A", task := "y", status := some 500, response_time := 2, error := none }

/-- a worker that has finished when the harvest loop runs -/
def mFinished : Machine :=
  { config := cfgEmpty7, credentials := [], current_credential := none,
    state := "DONE", metrics := [rec7A] }

/-- a worker still running when the harvest loop runs -/
def mPending : Machine :=
  { config := cfgEmpty7, credentials := [], current_credential := none,
    state := "A", metrics := [rec7B] }

/-- a one-state LOGIN graph whose task declares the body `d0` -/
def cfgC8 (d0 : Dict) : Config :=
  { initial_state := some "LOGIN"
    states := [("LOGIN",
      { tasks := [{ name := "login", method := "POST", url := "https://example.com/login"
                    params := some { data := some d0 } }]
        transitions := [] })] }

/-- the task of the inconsistent graph -/
def taskC9 : TaskDef := { name := "probe", method := "GET", url := "u", params := none }

/-- an inconsistent graph: state A's only transition targets `MISSING`,
which names no state -/
def cfgC9 : Config :=
  { initial_state := some "A"
    states := [("A",
      { tasks := [taskC9]
        transitions := [{ condition := fun _ => true, next_state := "MISSING", terminate := false }] })] }

/-- the credential pool of `main` -/
def creds3 : List Dict :=
  [[("username", "user1"), ("password", "pass1")],
   [("username", "user2"), ("password", "pass2")],
   [("username", "user3"), ("password", "pass3")]]

/-- the transitions used by the first-match witness -/
def tW1 : Transition :=
  { condition := fun st => st == some 200, next_state := "B1", terminate := false }

/-- the second transition of the first-match witness; it also matches 200 -/
def tW2 : Transition :=
  { condition := fun _ => true, next_state := "B2", terminate := false }

/-- the transition used by the terminal-halt witness -/
def tW4 : Transition :=
  { condition := fun _ => true, next_state := "B", terminate := true }

/-- the never-matching transition used by the live-loop witness -/
def tW5 : Transition :=
  { condition := fun _ => false, next_state := "X", terminate := false }

/-- the task used by the metric-shape witness -/
def taskC6w : TaskDef := { name := "w", method := "GET", url := "u", params := none }

/-- the one-state graph used by the metric-shape witness -/
def cfgC6w : Config :=
  { initial_state := some "S", states := [("S", { tasks := [taskC6w], transitions := [] })] }

/-- a config with no `initial_state` key and an empty states mapping -/
def cfgC10w : Config := { initial_state := none, states := [] }

end Claws

namespace Claws

/-! Theorems settling the claims. -/

/-- once the worker sits in state B of the scenario graph — present in
the graph, but with no tasks and no transitions — each pass of the outer
loop only samples the flag and comes back to the same state, so the run
never returns while the flag stays true -/
theorem c1_loop_aux (f : Nat) :
    ∀ w : World, w.m.state = "B" → w.m.config = cfgC1 →
      (runLoop (envOk 200) f w).isDone = false := by
  induction f with
  | zero => intro w _ _; rfl
  | succ f ih =>
    intro w h1 h2
    have hlook : List.lookup w.m.state w.m.config.states =
        some { tasks := [], transitions := [] } := by
      rw [h1, h2]; rfl
    have hstep : runLoop (envOk 200) (f + 1) w = runLoop (envOk 200) f (bumpFlag w) := by
      simp only [runLoop, hlook]
      rfl
    rw [hstep]
    exact ih (bumpFlag w) h1 h2

/-- C1: the claim says a state whose StateDef has an empty task list and
empty transition list is terminal, so that on the scenario graph
(A moves to B on status 200, B empty) the worker's run ends in B with one
status-200 record. The code refutes the termination half: the worker does
reach B with exactly that one record, but `run` never returns — for every
amount of fuel the outer `while` loop is still spinning (`B` is in the
states mapping, the flag is true, and an empty task list changes
nothing), a live busy-loop rather than a terminal state. -/
theorem c1_empty_sink_loops :
    (∀ f, (runLoop (envOk 200) f (initWorld cfgC1 [])).isDone = false) ∧
    (finalWorld (runLoop (envOk 200) 2 (initWorld cfgC1 []))).m.state = "B" ∧
    (finalWorld (runLoop (envOk 200) 2 (initWorld cfgC1 []))).m.metrics = [recC1] := by
  refine ⟨?_, rfl, rfl⟩
  intro f
  match f with
  | 0 => rfl
  | f + 1 =>
    have h : runLoop (envOk 200) (f + 1) (initWorld cfgC1 []) =
        runLoop (envOk 200) f wB1 := rfl
    rw [h]
    exact c1_loop_aux f wB1 rfl rfl

/-- C2: the claim says executing tasks never mutates the shared
StateGraph or any Task in it. The code refutes it: running the LOGIN
state once with credential `credU` rewrites the task's `params` data in
the shared config — `params["data"].update(self.current_credential)`
mutates the dict stored in the graph — so the LOGIN task list afterwards
differs from the one the run started with and now carries the
credential. -/
theorem c2_shared_task_mutated :
    tasksOf (finalWorld (runLoop (envOk 200) 1 (initWorld cfgC2 [credU]))).m.config "LOGIN" ≠
      tasksOf cfgC2 "LOGIN" ∧
    tasksOf (finalWorld (runLoop (envOk 200) 1 (initWorld cfgC2 [credU]))).m.config "LOGIN" =
      some [{ taskLogin with params := some { data := some credU } }] :=
  ⟨by decide, rfl⟩

/-- C3: transition predicates are evaluated in declared order and the
first matching one wins: for any two transitions that both accept the
status the HTTP capability returns, the scan picks the first and the
worker's next state is the first one's target. -/
theorem c3_first_match_wins (t1 t2 : Transition) (st : Nat)
    (h1 : t1.condition (some st) = true) (h2 : t2.condition (some st) = true) :
    findTransition (some st) [t1, t2] = some t1 ∧
    (finalWorld (runLoop (envOk st) 1 (initWorld (cfgC3 t1 t2) []))).m.state = t1.next_state := by
  constructor
  · simp [findTransition, h1]
  · cases hb : t1.terminate <;>
      simp [runLoop, taskLoop, executeTask, popCredential, bumpFlag, flagVal, envOk,
        initWorld, initMachine, cfgC3, taskPing, taskRequest, requestData, credTruthy,
        transitionsOf, findTransition, setState, recordOf, statusOf, finalWorld, h1, hb]

/-- C3 witness: with two concrete transitions both matching status 200,
the engine takes the first one's target. -/
theorem c3_first_match_wins_witness :
    findTransition (some 200) [tW1, tW2] = some tW1 ∧
    (finalWorld (runLoop (envOk 200) 1 (initWorld (cfgC3 tW1 tW2) []))).m.state = tW1.next_state :=
  c3_first_match_wins tW1 tW2 200 rfl rfl

/-- C4: when the first matching transition is flagged terminal, the
worker sets its state to that transition's target and the run returns at
once, for any remaining fuel: only the one task that triggered it has
executed — one request, one record — even though the current state has a
second task and state B has a task of its own. -/
theorem c4_terminal_halts (t : Transition) (f : Nat)
    (hterm : t.terminate = true) (hc : t.condition (some 200) = true) :
    (runLoop (envOk 200) (f + 1) (initWorld (cfgC4 t) [])).isDone = true ∧
    (finalWorld (runLoop (envOk 200) (f + 1) (initWorld (cfgC4 t) []))).m.state = t.next_state ∧
    (finalWorld (runLoop (envOk 200) (f + 1) (initWorld (cfgC4 t) []))).trace.length = 1 ∧
    (finalWorld (runLoop (envOk 200) (f + 1) (initWorld (cfgC4 t) []))).m.metrics.length = 1 := by
  refine ⟨?_, ?_, ?_, ?_⟩ <;>
    simp [runLoop, taskLoop, executeTask, popCredential, bumpFlag, flagVal, envOk,
      initWorld, initMachine, cfgC4, taskA4, taskB4, taskRequest, requestData, credTruthy,
      transitionsOf, findTransition, setState, recordOf, statusOf, finalWorld,
      RunResult.isDone, hterm, hc]

/-- C4 witness: a concrete always-matching terminal transition halts the
run with plenty of fuel left. -/
theorem c4_terminal_halts_witness :
    (runLoop (envOk 200) 6 (initWorld (cfgC4 tW4) [])).isDone = true ∧
    (finalWorld (runLoop (envOk 200) 6 (initWorld (cfgC4 tW4) []))).m.state = tW4.next_state ∧
    (finalWorld (runLoop (envOk 200) 6 (initWorld (cfgC4 tW4) []))).trace.length = 1 ∧
    (finalWorld (runLoop (envOk 200) 6 (initWorld (cfgC4 tW4) []))).m.metrics.length = 1 :=
  c4_terminal_halts tW4 5 rfl rfl

/-- one full pass of the outer loop over state S when its sole transition
never matches: both tasks run, two records and two requests are appended,
three flag samples are taken, and the state is unchanged -/
theorem c5_round (t : Transition) (hc : ∀ st, t.condition st = false)
    (f : Nat) (creds : List Dict) (cc : Option Dict) (ms : List MetricRecord)
    (hcalls fchecks : Nat) (tr : List Request) :
    runLoop (envOk 200) (f + 1) ⟨⟨cfgC5 t, creds, cc, "S", ms⟩, hcalls, fchecks, tr⟩ =
      runLoop (envOk 200) f
        ⟨⟨cfgC5 t, creds, cc, "S", ms ++ [recC5A, recC5B]⟩,
          hcalls + 2, fchecks + 3, tr ++ [reqC5A, reqC5B]⟩ := by
  simp [runLoop, taskLoop, executeTask, popCredential, bumpFlag, flagVal, envOk,
    taskRequest, requestData, credTruthy, transitionsOf, findTransition, setState,
    recordOf, statusOf, cfgC5, taskA5, taskB5, recC5A, recC5B, reqC5A, reqC5B, hc]

/-- with a never-matching transition and the flag held true, any number
of passes leaves the worker in state S, never returns, and has issued two
requests per pass — the whole task list is re-executed every time -/
theorem c5_aux (t : Transition) (hc : ∀ st, t.condition st = false) (f : Nat) :
    ∀ w : World, w.m.state = "S" → w.m.config = cfgC5 t →
      (runLoop (envOk 200) f w).isDone = false ∧
      (finalWorld (runLoop (envOk 200) f w)).m.state = "S" ∧
      (finalWorld (runLoop (envOk 200) f w)).trace.length = w.trace.length + 2 * f := by
  induction f with
  | zero =>
    intro w h1 _
    refine ⟨rfl, h1, ?_⟩
    show (finalWorld (RunResult.fuelOut w)).trace.length = w.trace.length + 2 * 0
    simp [finalWorld]
  | succ f ih =>
    intro w h1 h2
    obtain ⟨⟨cfg, creds, cc, s, ms⟩, hcalls, fchecks, tr⟩ := w
    dsimp only at h1 h2
    subst h1 h2
    rw [c5_round t hc f creds cc ms hcalls fchecks tr]
    obtain ⟨a, b, c⟩ := ih
      ⟨⟨cfgC5 t, creds, cc, "S", ms ++ [recC5A, recC5B]⟩,
        hcalls + 2, fchecks + 3, tr ++ [reqC5A, reqC5B]⟩ rfl rfl
    refine ⟨a, b, ?_⟩
    rw [c]
    simp [List.length_append]
    omega

/-- C5: if no transition of a state matches any task's result, the worker
stays in that state after the whole task list, and the outer loop
re-enters it and re-executes the entire list again, without end while the
shared flag stays true (the run is never done and the request count grows
by the full task-list length each pass); and as soon as a flag sample at
a loop boundary is false the run returns. -/
theorem c5_no_match_live_loop (t : Transition) (hc : ∀ st, t.condition st = false) :
    (∀ f, (runLoop (envOk 200) f (initWorld (cfgC5 t) [])).isDone = false ∧
          (finalWorld (runLoop (envOk 200) f (initWorld (cfgC5 t) []))).m.state = "S" ∧
          (finalWorld (runLoop (envOk 200) f (initWorld (cfgC5 t) []))).trace.length = 2 * f) ∧
    (∀ (env : Env) (f : Nat) (w : World), w.m.state = "S" → w.m.config = cfgC5 t →
        env.running w.flagChecks = false →
        runLoop env (f + 1) w = .done (bumpFlag w)) := by
  constructor
  · intro f
    have h := c5_aux t hc f (initWorld (cfgC5 t) []) rfl rfl
    simpa [initWorld] using h
  · intro env f w h1 h2 hflag
    have hlook : List.lookup w.m.state w.m.config.states =
        some { tasks := [taskA5, taskB5], transitions := [t] } := by
      rw [h1, h2]; rfl
    simp only [runLoop, hlook]
    simp [flagVal, hflag]

/-- C5 witness: with a concrete never-true condition, three passes leave
the run not done. -/
theorem c5_no_match_live_loop_witness :
    (runLoop (envOk 200) 3 (initWorld (cfgC5 tW5) [])).isDone = false :=
  ((c5_no_match_live_loop tW5 (fun _ => rfl)).1 3).1

/-- C6: every task execution appends exactly one metric record; exactly
one of status and error is present in it; on HTTP success it carries the
response status, the elapsed time, and no error, and the status is
returned; on transport failure it carries no status, the elapsed time,
and the failure description, and no status is returned (the worker
carries on — the failure is absorbed, not raised). -/
theorem c6_single_metric_per_task (env : Env) (si : String) (ti : Nat) (w : World)
    (sd : StateDef) (task : TaskDef)
    (hs : List.lookup si w.m.config.states = some sd)
    (ht : sd.tasks.get? ti = some task) :
    ∃ r : MetricRecord,
      (executeTask env si ti w).fst.m.metrics = w.m.metrics ++ [r] ∧
      r.status.isSome = !r.error.isSome ∧
      r.state = si ∧ r.task = task.name ∧
      (∀ s e, env.http w.httpCalls (taskRequest w.m.current_credential task) = .ok s e →
        r.status = some s ∧ r.error = none ∧ r.response_time = e ∧
        (executeTask env si ti w).snd = some s) ∧
      (∀ msg e, env.http w.httpCalls (taskRequest w.m.current_credential task) = .err msg e →
        r.status = none ∧ r.error = some msg ∧ r.response_time = e ∧
        (executeTask env si ti w).snd = none) := by
  have ht2 : sd.tasks[ti]? = some task := by simpa using ht
  cases hres : env.http w.httpCalls (taskRequest w.m.current_credential task) with
  | ok s e =>
    refine ⟨recordOf si task (.ok s e), ?_, ?_, ?_, ?_, ?_, ?_⟩ <;>
      simp [executeTask, hs, ht2, hres, recordOf, statusOf]
  | err msg e =>
    refine ⟨recordOf si task (.err msg e), ?_, ?_, ?_, ?_, ?_, ?_⟩ <;>
      simp [executeTask, hs, ht2, hres, recordOf, statusOf]

/-- C6 witness: the metric-shape theorem applied to a concrete one-task
state in a fresh world. -/
theorem c6_single_metric_per_task_witness :
    ∃ r : MetricRecord,
      (executeTask (envOk 200) "S" 0 (initWorld cfgC6w [])).fst.m.metrics =
        (initWorld cfgC6w []).m.metrics ++ [r] ∧
      r.status.isSome = !r.error.isSome ∧
      r.state = "S" ∧ r.task = taskC6w.name ∧
      (∀ s e, (envOk 200).http (initWorld cfgC6w []).httpCalls
          (taskRequest (initWorld cfgC6w []).m.current_credential taskC6w) = .ok s e →
        r.status = some s ∧ r.error = none ∧ r.response_time = e ∧
        (executeTask (envOk 200) "S" 0 (initWorld cfgC6w [])).snd = some s) ∧
      (∀ msg e, (envOk 200).http (initWorld cfgC6w []).httpCalls
          (taskRequest (initWorld cfgC6w []).m.current_credential taskC6w) = .err msg e →
        r.status = none ∧ r.error = some msg ∧ r.response_time = e ∧
        (executeTask (envOk 200) "S" 0 (initWorld cfgC6w [])).snd = none) :=
  c6_single_metric_per_task (envOk 200) "S" 0 (initWorld cfgC6w [])
    { tasks := [taskC6w], transitions := [] } taskC6w rfl rfl

/-- C7 counterexample: the harvest loop of `main` adds the metrics of
every machine of the round, not only of those that have finished — with
one finished and one still-running machine, the code's harvest contains
both records while a finished-only harvest would contain just the first. -/
theorem c7_unfinished_harvested :
    harvestRound [] [mFinished, mPending] = [rec7A, rec7B] ∧
    harvestFinishedSpec [] [(mFinished, true), (mPending, false)] = [rec7A] :=
  ⟨rfl, rfl⟩

/-- C7 amended: after each orchestration round, the metrics of every
machine of that round — finished or not — are harvested; the collector's
record count grows by the sum of all that round's machines' record counts
at harvest time. -/
theorem c7_harvest_total (collected : List MetricRecord) (machines : List Machine) :
    (harvestRound collected machines).length =
      collected.length + (machines.map (fun sm => sm.metrics.length)).sum := by
  induction machines generalizing collected with
  | nil => simp [harvestRound]
  | cons m ms ih =>
    have h : harvestRound collected (m :: ms) = harvestRound (collected ++ m.metrics) ms := rfl
    rw [h, ih]
    simp
    omega

/-- C7 amended witness: the count identity at a concrete round. -/
theorem c7_harvest_total_witness :
    (harvestRound [] [mFinished, mPending]).length =
      ([] : List MetricRecord).length +
        ([mFinished, mPending].map (fun sm => sm.metrics.length)).sum :=
  c7_harvest_total [] [mFinished, mPending]

/-- C8: a worker in state LOGIN with a non-empty credential queue pops
the front credential before the task executes — the queue shrinks by one
and the popped credential is held as the current credential — and since
the task declares a body, the credential's fields are merged into that
body in the request that is sent. -/
theorem c8_credential_injection (c : Dict) (rest : List Dict) (d0 : Dict) :
    (finalWorld (runLoop (envOk 200) 1 (initWorld (cfgC8 d0) (c :: rest)))).m.credentials = rest ∧
    (finalWorld (runLoop (envOk 200) 1 (initWorld (cfgC8 d0) (c :: rest)))).m.current_credential = some c ∧
    (finalWorld (runLoop (envOk 200) 1 (initWorld (cfgC8 d0) (c :: rest)))).trace =
      [{ method := "POST", url := "https://example.com/login", data := some (dictUpdate d0 c) }] := by
  cases hc : c.isEmpty
  · refine ⟨?_, ?_, ?_⟩ <;>
      simp [runLoop, taskLoop, executeTask, popCredential, bumpFlag, flagVal, envOk,
        initWorld, initMachine, cfgC8, taskRequest, requestData, credTruthy,
        transitionsOf, findTransition, recordOf, statusOf, finalWorld, hc]
  · have hnil : c = [] := List.isEmpty_iff.mp hc
    subst hnil
    refine ⟨?_, ?_, ?_⟩ <;>
      simp [runLoop, taskLoop, executeTask, popCredential, bumpFlag, flagVal, envOk,
        initWorld, initMachine, cfgC8, taskRequest, requestData, credTruthy,
        transitionsOf, findTransition, recordOf, statusOf, finalWorld, dictUpdate]

/-- C8 witness: the injection at the concrete credential `credU` and an
empty declared body. -/
theorem c8_credential_injection_witness :
    (finalWorld (runLoop (envOk 200) 1 (initWorld (cfgC8 []) (credU :: [])))).m.credentials = [] ∧
    (finalWorld (runLoop (envOk 200) 1 (initWorld (cfgC8 []) (credU :: [])))).m.current_credential = some credU ∧
    (finalWorld (runLoop (envOk 200) 1 (initWorld (cfgC8 []) (credU :: [])))).trace =
      [{ method := "POST", url := "https://example.com/login", data := some (dictUpdate [] credU) }] :=
  c8_credential_injection credU [] []

/-- C9 counterexample: with a transition targeting `MISSING`, a name
absent from the states mapping, nothing fails at startup — `main` still
builds its full population of three workers, and a worker's run executes
state A's task (one HTTP request), moves into `MISSING`, and returns
normally; the inconsistency is tolerated silently at run time rather than
surfaced as an error before any worker is launched. -/
theorem c9_no_startup_check :
    (buildMachines cfgC9 creds3).length = 3 ∧
    (runLoop (envOk 200) 2 (initWorld cfgC9 creds3)).isDone = true ∧
    (finalWorld (runLoop (envOk 200) 2 (initWorld cfgC9 creds3))).m.state = "MISSING" ∧
    (finalWorld (runLoop (envOk 200) 2 (initWorld cfgC9 creds3))).trace.length = 1 :=
  ⟨rfl, rfl, rfl, rfl⟩

/-- C9 amended: a configuration inconsistency is not detected at startup;
whatever status the capability returns, the worker runs the dangling
state's task, records a normal metric, steps to the unknown target, and
its run then ends silently because the while-condition fails — no error
is ever surfaced. -/
theorem c9_dangling_target_silent (s : Nat) :
    (runLoop (envOk s) 2 (initWorld cfgC9 creds3)).isDone = true ∧
    (finalWorld (runLoop (envOk s) 2 (initWorld cfgC9 creds3))).m.state = "MISSING" ∧
    (finalWorld (runLoop (envOk s) 2 (initWorld cfgC9 creds3))).m.metrics =
      [{ state := "A", task := "probe", status := some s, response_time := 5, error := none }] :=
  ⟨rfl, rfl, rfl⟩

/-- C9 amended witness: the silent run-through at status 503. -/
theorem c9_dangling_target_silent_witness :
    (runLoop (envOk 503) 2 (initWorld cfgC9 creds3)).isDone = true ∧
    (finalWorld (runLoop (envOk 503) 2 (initWorld cfgC9 creds3))).m.state = "MISSING" ∧
    (finalWorld (runLoop (envOk 503) 2 (initWorld cfgC9 creds3))).m.metrics =
      [{ state := "A", task := "probe", status := some 503, response_time := 5, error := none }] :=
  c9_dangling_target_silent 503

/-- C10: a config without the `initial_state` key starts the worker in
the synthetic state INITIAL; and a worker whose starting state names no
entry of the states mapping returns immediately from `run` with its world
untouched — no HTTP call, no metric record, credential queue unchanged. -/
theorem c10_default_initial_and_absent_state (env : Env) (cfg : Config)
    (creds : List Dict) (f : Nat)
    (h1 : List.lookup (initMachine cfg creds).state cfg.states = none) :
    (cfg.initial_state = none → (initMachine cfg creds).state = "INITIAL") ∧
    runLoop env (f + 1) (initWorld cfg creds) = .done (initWorld cfg creds) := by
  constructor
  · intro h0
    simp [initMachine, h0]
  · have h2 : List.lookup (cfg.initial_state.getD "INITIAL") cfg.states = none := by
      simpa [initMachine] using h1
    simp [runLoop, initWorld, initMachine, h2]

/-- C10 witness: the empty config, whose synthetic INITIAL state is
absent from the empty states mapping. -/
theorem c10_default_initial_and_absent_state_witness :
    (cfgC10w.initial_state = none → (initMachine cfgC10w []).state = "INITIAL") ∧
    runLoop (envOk 200) 1 (initWorld cfgC10w []) = .done (initWorld cfgC10w []) :=
  c10_default_initial_and_absent_state (envOk 200) cfgC10w [] 0 rfl

end Claws
